import Mathlib

/-!
Shallow embedding of `src/extract_pdf.py`.

The program is a single-purpose command-line utility: it opens a PDF file
through the external PyPDF2 library, concatenates the text of every page
(each followed by a newline), and prints the result.  Any failure inside
the extraction is caught and converted to a diagnostic string
`"Erro ao ler PDF: " ++ str(e)`.

The external library is opaque to the program, so it is modelled as a
function from a path to either an open-time failure (the message of the
raised exception) or the ordered list of pages; querying a page for its
text may itself fail with an exception message.
-/

/-- Model of the external PDF-decoding library (PyPDF2).
`lib path` is the outcome of `PdfReader(path)` together with the lazy
page queries: `.error e` means opening/decoding raised an exception whose
textual description is `e`; `.ok pages` gives the pages in document
order, where each entry is the outcome of that page's `extract_text()`
call (`.error e` if that call raises `e`, `.ok t` if it returns text `t`). -/
def PdfLib : Type := String → Except String (List (Except String String))

/-- The `for page in reader.pages: text += page.extract_text() + "\n"`
loop of `extract_text_from_pdf` (src/extract_pdf.py lines 8-11), with the
accumulated `text` passed explicitly.  A raising `extract_text()` aborts
the loop, propagating the exception (to the `except` clause). -/
def extractPages : String → List (Except String String) → Except String String
  | acc, [] => Except.ok acc
  | acc, Except.ok t :: rest => extractPages (acc ++ (t ++ "\n")) rest
  | _, Except.error e :: _ => Except.error e

/-- `extract_text_from_pdf` (src/extract_pdf.py lines 5-13): run the page
loop; any exception — at open time or from a page — is caught and turned
into the diagnostic string `"Erro ao ler PDF: " + str(e)`. -/
def extract_text_from_pdf (lib : PdfLib) (pdf_path : String) : String :=
  match lib pdf_path with
  | Except.error e => "Erro ao ler PDF: " ++ e
  | Except.ok pages =>
    match extractPages "" pages with
    | Except.ok text => text
    | Except.error e => "Erro ao ler PDF: " ++ e

/-- The process environment seen by the `__main__` block: the
`os.path.exists` predicate and the PDF library's behaviour. -/
structure Env where
  pathExists : String → Bool
  lib : PdfLib

/-- The three control-flow branches of the `__main__` block:
usage message (line 16), file-not-found (line 21), extraction (line 25). -/
inductive Branch where
  | usage
  | notFound
  | extraction
deriving DecidableEq

/-- Which branch the `__main__` block takes for a given argument list
(`args` is `sys.argv` without the program name, so `len(sys.argv) < 2`
is `args = []`). -/
def mainBranch (env : Env) (args : List String) : Branch :=
  match args with
  | [] => Branch.usage
  | p :: _ => if env.pathExists p then Branch.extraction else Branch.notFound

/-- The `__main__` block (src/extract_pdf.py lines 15-26): returns the
full standard-output text (each `print(x)` emits `x ++ "\n"`) and the
process exit status (`sys.exit(1)` on the two early branches, implicit
`0` on normal termination). -/
def mainEntry (env : Env) (args : List String) : String × Nat :=
  match args with
  | [] => ("Uso: python extract_pdf.py <caminho_do_pdf>\n", 1)
  | p :: _ =>
    if env.pathExists p then
      (extract_text_from_pdf env.lib p ++ "\n", 0)
    else
      ("Arquivo não encontrado: " ++ p ++ "\n", 1)

/-- The output shape the spec promises for a successful extraction:
each page text followed by one newline, in page order. -/
def joinNewline : List String → String
  | [] => ""
  | p :: ps => (p ++ "\n") ++ joinNewline ps

/-- The first exception raised inside a page list, if any. -/
def listFirstError : List (Except String String) → Option String
  | [] => none
  | Except.ok _ :: rest => listFirstError rest
  | Except.error e :: _ => some e

/-- The first exception the library raises for a given open result:
the open-time exception, or else the first failing page's exception. -/
def firstFailure : Except String (List (Except String String)) → Option String
  | Except.error e => some e
  | Except.ok pages => listFirstError pages

/-- A string ends in two consecutive newline characters. -/
def endsTwoNewlines (s : String) : Prop := ∃ t, s = t ++ "\n\n"

/- Concrete library behaviours used as witnesses. -/

/-- A library that yields one page with empty extractable text, for any path. -/
def libEmptyPage : PdfLib := fun _ => Except.ok [Except.ok ""]

/-- A library that fails to open any path. -/
def libOpenFail : PdfLib := fun _ => Except.error "bad header"

/-- A library that yields one good page and then a failing page. -/
def libMidFail : PdfLib :=
  fun _ => Except.ok [Except.ok "secret", Except.error "stream error"]

/-- A library that opens every path as a zero-page document. -/
def libNoPages : PdfLib := fun _ => Except.ok []

/-- Environment where every path exists and opens as a zero-page document. -/
def envNoPages : Env := { pathExists := fun _ => true, lib := libNoPages }

/-- Environment where every path exists, one empty page per document. -/
def envEmptyPage : Env := { pathExists := fun _ => true, lib := libEmptyPage }

/-- Environment where no path exists. -/
def envNothing : Env := { pathExists := fun _ => false, lib := libNoPages }

/- Helper lemmas about the page loop. -/

lemma extractPages_map_ok (ps : List String) :
    ∀ acc : String, extractPages acc (ps.map Except.ok)
      = Except.ok (acc ++ joinNewline ps) := by
  induction ps with
  | nil =>
    intro acc
    simp [extractPages, joinNewline]
  | cons q ps ih =>
    intro acc
    simp only [List.map, extractPages, joinNewline, ih, String.append_assoc]

lemma extractPages_first_error (pages : List (Except String String)) :
    ∀ acc e, listFirstError pages = some e →
      extractPages acc pages = Except.error e := by
  induction pages with
  | nil =>
    intro acc e h
    simp [listFirstError] at h
  | cons pg rest ih =>
    intro acc e h
    cases pg with
    | ok t =>
      simp only [listFirstError] at h
      simp [extractPages, ih _ _ h]
    | error e₀ =>
      simp only [listFirstError, Option.some.injEq] at h
      simp [extractPages, h]

lemma listFirstError_append_ok (ps : List String) (e : String)
    (rest : List (Except String String)) :
    listFirstError (ps.map Except.ok ++ Except.error e :: rest) = some e := by
  induction ps with
  | nil => simp [listFirstError]
  | cons q ps ih => simpa [listFirstError] using ih

lemma joinNewline_ends_newline (ps : List String) :
    ∀ q : String, ∃ s, joinNewline (q :: ps) = s ++ "\n" := by
  induction ps with
  | nil =>
    intro q
    exact ⟨q, by simp [joinNewline]⟩
  | cons r ps ih =>
    intro q
    obtain ⟨s, hs⟩ := ih r
    refine ⟨(q ++ "\n") ++ s, ?_⟩
    show (q ++ "\n") ++ joinNewline (r :: ps) = ((q ++ "\n") ++ s) ++ "\n"
    rw [hs]
    simp [String.append_assoc]

/- Claim theorems. -/

/-- Claim C1: if the library opens the document and every page's
`extract_text()` succeeds, yielding texts `ps` in document order, then
`extract_text_from_pdf` returns exactly each page text followed by one
newline, in page order (so a single empty-text page yields `"\n"`). -/
theorem extract_concats_pages_in_order (lib : PdfLib) (pdf_path : String)
    (ps : List String) (h : lib pdf_path = Except.ok (ps.map Except.ok)) :
    extract_text_from_pdf lib pdf_path = joinNewline ps := by
  simp [extract_text_from_pdf, h, extractPages_map_ok]

/-- Claim C1 witness: a single page with empty extracted text yields `"\n"`. -/
theorem extract_concats_pages_in_order_witness :
    libEmptyPage "doc.pdf" = Except.ok ([""].map Except.ok) ∧
      extract_text_from_pdf libEmptyPage "doc.pdf" = "\n" := by
  refine ⟨rfl, ?_⟩
  simpa [joinNewline] using
    extract_concats_pages_in_order libEmptyPage "doc.pdf" [""] rfl

/-- Claim C2: whenever any exception is raised — at open/decode time or
by a page's `extract_text()` — `extract_text_from_pdf` catches it and
returns the diagnostic string containing that exception's textual
description, instead of extracted text.  (In this embedding the function
is total, so nothing escapes its boundary.) -/
theorem extract_catches_all_failures (lib : PdfLib) (pdf_path : String)
    (e : String) (h : firstFailure (lib pdf_path) = some e) :
    extract_text_from_pdf lib pdf_path = "Erro ao ler PDF: " ++ e := by
  cases hl : lib pdf_path with
  | error e₀ =>
    rw [hl] at h
    simp only [firstFailure, Option.some.injEq] at h
    simp [extract_text_from_pdf, hl, h]
  | ok pages =>
    rw [hl] at h
    simp only [firstFailure] at h
    simp [extract_text_from_pdf, hl, extractPages_first_error pages "" e h]

/-- Claim C2 witness: an open-time failure produces the diagnostic string. -/
theorem extract_catches_all_failures_witness :
    firstFailure (libOpenFail "x.pdf") = some "bad header" ∧
      extract_text_from_pdf libOpenFail "x.pdf" = "Erro ao ler PDF: bad header" :=
  ⟨rfl, extract_catches_all_failures libOpenFail "x.pdf" "bad header" rfl⟩

/-- Claim C3: when the entry point is given at least one argument and the
first names an existing filesystem entry, the process exits with status 0
and standard output is exactly the value `extract_text_from_pdf` returned
(extracted text or diagnostic string) as printed by `print` — an
extraction failure never causes a non-zero exit. -/
theorem mainEntry_exit_zero_on_existing (env : Env) (p : String)
    (rest : List String) (h : env.pathExists p = true) :
    mainEntry env (p :: rest) = (extract_text_from_pdf env.lib p ++ "\n", 0) := by
  simp [mainEntry, h]

/-- Claim C3 witness: on an existing file whose open fails, the process
still exits 0, printing the diagnostic. -/
theorem mainEntry_exit_zero_on_existing_witness :
    ({ pathExists := fun _ => true, lib := libOpenFail } : Env).pathExists "a.pdf" = true ∧
      mainEntry { pathExists := fun _ => true, lib := libOpenFail } ["a.pdf"]
        = ("Erro ao ler PDF: bad header\n", 0) :=
  ⟨rfl, mainEntry_exit_zero_on_existing
    { pathExists := fun _ => true, lib := libOpenFail } "a.pdf" [] rfl⟩

/-- Claim C4: extraction is all-or-nothing — if a page's `extract_text()`
raises after some pages already succeeded, the whole call returns only
the diagnostic string; none of the already-accumulated page texts appear
in the result. -/
theorem extract_all_or_nothing (lib : PdfLib) (pdf_path : String)
    (ps : List String) (e : String) (rest : List (Except String String))
    (h : lib pdf_path = Except.ok (ps.map Except.ok ++ Except.error e :: rest)) :
    extract_text_from_pdf lib pdf_path = "Erro ao ler PDF: " ++ e := by
  have hfe := listFirstError_append_ok ps e rest
  simp [extract_text_from_pdf, h, extractPages_first_error _ "" e hfe]

/-- Claim C4 witness: a first page yielding `"secret"` followed by a
failing page produces only the diagnostic, with no partial text. -/
theorem extract_all_or_nothing_witness :
    libMidFail "x.pdf"
        = Except.ok (["secret"].map Except.ok ++ Except.error "stream error" :: []) ∧
      extract_text_from_pdf libMidFail "x.pdf" = "Erro ao ler PDF: stream error" :=
  ⟨rfl, extract_all_or_nothing libMidFail "x.pdf" ["secret"] "stream error" [] rfl⟩

/-- Claim C5: the program is deterministic modulo the external library —
two runs against the same filesystem behaviour and the same library
behaviour (same file bytes, deterministic library) produce identical
output and exit status. -/
theorem mainEntry_deterministic (env₁ env₂ : Env) (args : List String)
    (hex : env₁.pathExists = env₂.pathExists) (hlib : env₁.lib = env₂.lib) :
    mainEntry env₁ args = mainEntry env₂ args := by
  cases env₁
  cases env₂
  cases hex
  cases hlib
  rfl

/-- Claim C5 witness: two runs on the same environment agree. -/
theorem mainEntry_deterministic_witness :
    mainEntry envEmptyPage ["a.pdf"] = mainEntry envEmptyPage ["a.pdf"] :=
  mainEntry_deterministic envEmptyPage envEmptyPage ["a.pdf"] rfl rfl

/-- Claim C6: with no path argument supplied, the process prints the
usage message to standard output and exits with status 1, taking the
usage branch regardless of the environment (so the Extractor is never
consulted). -/
theorem mainEntry_usage_on_no_args (env : Env) :
    mainEntry env [] = ("Uso: python extract_pdf.py <caminho_do_pdf>\n", 1) ∧
      mainBranch env [] = Branch.usage :=
  ⟨rfl, rfl⟩

/-- Claim C7: when the first path argument does not reference an existing
filesystem entry, the process prints a not-found message containing that
exact path and exits with status 1, on the not-found branch (so the
Extractor is never consulted). -/
theorem mainEntry_not_found (env : Env) (p : String) (rest : List String)
    (h : env.pathExists p = false) :
    mainEntry env (p :: rest) = ("Arquivo não encontrado: " ++ p ++ "\n", 1) ∧
      mainBranch env (p :: rest) = Branch.notFound := by
  constructor
  · simp [mainEntry, h]
  · simp [mainBranch, h]

/-- Claim C7 witness: a missing path yields the not-found message and exit 1. -/
theorem mainEntry_not_found_witness :
    envNothing.pathExists "missing.pdf" = false ∧
      mainEntry envNothing ["missing.pdf"]
        = ("Arquivo não encontrado: missing.pdf\n", 1) := by
  refine ⟨rfl, ?_⟩
  simpa using (mainEntry_not_found envNothing "missing.pdf" [] rfl).1

/-- Claim C8 counterexample: with two positional arguments and the first
naming an existing entry, the entry point still takes the extraction
branch — `len(sys.argv) < 2` only rejects zero arguments, so extraction
is attempted although the number of path arguments is not exactly one. -/
theorem mainBranch_two_args_counterexample :
    mainBranch envNoPages ["a.pdf", "b.pdf"] = Branch.extraction ∧
      ¬ (["a.pdf", "b.pdf"] : List String).length = 1 :=
  ⟨rfl, by decide⟩

/-- Claim C8 amended: the entry point requires at least one positional
argument; whenever one or more are supplied and the first names an
existing entry, extraction is attempted on the first argument, and any
extra arguments are ignored (the run behaves as if only the first were
given). -/
theorem mainEntry_uses_first_arg (env : Env) (p : String) (rest : List String)
    (h : env.pathExists p = true) :
    mainBranch env (p :: rest) = Branch.extraction ∧
      mainEntry env (p :: rest) = mainEntry env [p] := by
  constructor
  · simp [mainBranch, h]
  · simp [mainEntry, h]

/-- Claim C8 amended witness: two arguments behave like the first alone. -/
theorem mainEntry_uses_first_arg_witness :
    envNoPages.pathExists "a.pdf" = true ∧
      mainEntry envNoPages ["a.pdf", "b.pdf"] = mainEntry envNoPages ["a.pdf"] :=
  ⟨rfl, (mainEntry_uses_first_arg envNoPages "a.pdf" ["b.pdf"] rfl).2⟩

/-- Claim C9 counterexample: a document that opens successfully with zero
pages is a successfully extracted N-page document (N = 0) whose process
output is a single newline — it does not end in two consecutive newline
characters. -/
theorem mainEntry_zero_pages_counterexample :
    mainEntry envNoPages ["f.pdf"] = ("\n", 0) ∧
      ¬ endsTwoNewlines (mainEntry envNoPages ["f.pdf"]).1 := by
  refine ⟨rfl, ?_⟩
  rintro ⟨t, ht⟩
  have ht' : ("\n" : String) = t ++ "\n\n" := ht
  have hlen : ("\n" : String).length = (t ++ "\n\n").length :=
    congrArg String.length ht'
  rw [String.length_append] at hlen
  have h1 : ("\n" : String).length = 1 := rfl
  have h2 : ("\n\n" : String).length = 2 := rfl
  rw [h1, h2] at hlen
  omega

/-- Claim C9 amended: on the extraction path the process output is the
return value of `extract_text_from_pdf` followed by one newline appended
by `print`; hence for every successfully extracted document with at
least one page the output ends in two consecutive newline characters
(and a diagnostic string is likewise printed with a trailing newline). -/
theorem mainEntry_output_is_extract_plus_newline (env : Env) (p : String)
    (rest : List String) (h : env.pathExists p = true) :
    (mainEntry env (p :: rest)).1 = extract_text_from_pdf env.lib p ++ "\n" ∧
      (∀ q ps, env.lib p = Except.ok ((q :: ps).map Except.ok) →
        endsTwoNewlines (mainEntry env (p :: rest)).1) := by
  constructor
  · simp [mainEntry, h]
  · intro q ps hl
    have hpages : extractPages "" (List.map Except.ok (q :: ps))
        = Except.ok ("" ++ joinNewline (q :: ps)) := extractPages_map_ok (q :: ps) ""
    have hext : extract_text_from_pdf env.lib p = "" ++ joinNewline (q :: ps) := by
      simp only [extract_text_from_pdf, hl, hpages]
    obtain ⟨s, hs⟩ := joinNewline_ends_newline ps q
    refine ⟨s, ?_⟩
    have hnn : ("\n" : String) ++ "\n" = "\n\n" := rfl
    simp [mainEntry, h, hext, hs, String.append_assoc, hnn]

/-- Claim C9 amended witness: one empty page gives output `"\n\n"`. -/
theorem mainEntry_output_is_extract_plus_newline_witness :
    envEmptyPage.pathExists "doc.pdf" = true ∧
      endsTwoNewlines (mainEntry envEmptyPage ["doc.pdf"]).1 :=
  ⟨rfl,
    (mainEntry_output_is_extract_plus_newline envEmptyPage "doc.pdf" [] rfl).2
      "" [] rfl⟩

/-- Claim C10: a document that opens successfully with zero pages yields
the empty string — the loop body never runs, so no newline and no
diagnostic is produced. -/
theorem extract_zero_pages_empty (lib : PdfLib) (pdf_path : String)
    (h : lib pdf_path = Except.ok []) :
    extract_text_from_pdf lib pdf_path = "" := by
  simp [extract_text_from_pdf, h, extractPages]

/-- Claim C10 witness: a zero-page document yields the empty string. -/
theorem extract_zero_pages_empty_witness :
    libNoPages "z.pdf" = Except.ok [] ∧
      extract_text_from_pdf libNoPages "z.pdf" = "" :=
  ⟨rfl, extract_zero_pages_empty libNoPages "z.pdf" rfl⟩
